import Mathlib

/-!
Verification of the WMOJ code-judging service (`src/backend/src/index.ts`).

The judge consists of `runCodeAgainstTestCase`, which spawns one child
process per test case and resolves to a `TestResult`, and the `/judge`
request handler, which verifies the user, loads the problem and its test
cases, runs the loop, and responds with the aggregate report.

The shallow embedding models the asynchronous child-process orchestration
by the event that settles the promise: either the `close` event (with the
exit code, `null` when the process was killed, and the accumulated stdout
and stderr), the `error` event (spawn failure), or an exception caught by
the surrounding try/catch.  The handler is modelled as a function of the
outcomes of its awaited collaborator calls, returning the HTTP response
together with whether the uploaded file was deleted (`fs.unlinkSync`
attempted) before returning.
-/

namespace WMOJ

/-- A test case row as loaded from the `test_cases` table:
`{id, input, expected_output}`. -/
structure TestCase where
  id : String
  input : String
  expected_output : String
deriving DecidableEq, Repr, Inhabited

/-- The `TestResult` interface of the backend: optional fields of the
TypeScript object literal become `Option`, a field that a branch does not
mention is `none`. -/
structure TestResult where
  testCaseId : String
  passed : Bool
  actualOutput : Option String := none
  expectedOutput : Option String := none
  input : Option String := none
  error : Option String := none
deriving DecidableEq, Repr, Inhabited

/-- The event that settles the promise inside `runCodeAgainstTestCase`:
`close` carries the exit code (`none` models JavaScript `null`, the case
of a killed process) and the accumulated stdout/stderr; `errorEvent` is
the child process `error` event with its message; `orchException` is an
exception caught by the try/catch (`none` models a thrown non-`Error`
value). -/
inductive ProcEvent where
  | close (code : Option Nat) (stdout stderr : String)
  | errorEvent (message : String)
  | orchException (message : Option String)
deriving DecidableEq, Repr, Inhabited

/-- JavaScript string interpolation of the exit code: `null` prints as
`"null"`, a number as its decimal digits. -/
def exitCodeText : Option Nat → String
  | none => "null"
  | some n => toString n

/-- `runCodeAgainstTestCase` (index.ts:1501-1586): the `TestResult` the
promise resolves with, as a function of the settling event.  Every branch
resolves; the declared `reject` is never called. -/
def runCodeAgainstTestCase (tc : TestCase) (ev : ProcEvent) : TestResult :=
  match ev with
  | .close code stdout stderr =>
      if code ≠ some 0 then
        { testCaseId := tc.id
          passed := false
          error := some (if stderr = "" then
              "Process exited with code " ++ exitCodeText code else stderr)
          input := some tc.input }
      else
        let actualOutput := stdout.trim
        let expectedOutput := tc.expected_output.trim
        let passed := actualOutput == expectedOutput
        { testCaseId := tc.id
          passed := passed
          actualOutput := some actualOutput
          expectedOutput := some expectedOutput
          input := some tc.input }
  | .errorEvent message =>
      { testCaseId := tc.id
        passed := false
        error := some message
        input := some tc.input }
  | .orchException message =>
      { testCaseId := tc.id
        passed := false
        error := some (message.getD "Execution error")
        input := some tc.input }

/-- The wall-clock timeout passed to `spawn` (index.ts:1508). -/
def timeoutMs : Nat := 5000

/-- One child-process run, described by its wall-clock duration, the exit
code it would exit with, and the output accumulated on each pipe by the
time the promise settles. -/
structure ChildRun where
  durationMs : Nat
  exitCode : Nat
  stdout : String
  stderr : String
deriving DecidableEq, Repr

/-- The `close` event a run produces under Node's `timeout` spawn option:
past the budget the process is killed and `close` fires with exit code
`null`; otherwise it fires with the process's own exit code. -/
def observeChild (r : ChildRun) : ProcEvent :=
  if r.durationMs > timeoutMs then .close none r.stdout r.stderr
  else .close (some r.exitCode) r.stdout r.stderr

/-  Shared helper lemmas about `runCodeAgainstTestCase`. -/

theorem runCode_testCaseId (tc : TestCase) (ev : ProcEvent) :
    (runCodeAgainstTestCase tc ev).testCaseId = tc.id := by
  cases ev with
  | close code stdout stderr =>
      by_cases h : code = some 0 <;> simp [runCodeAgainstTestCase, h]
  | errorEvent m => rfl
  | orchException m => rfl

theorem runCode_input (tc : TestCase) (ev : ProcEvent) :
    (runCodeAgainstTestCase tc ev).input = some tc.input := by
  cases ev with
  | close code stdout stderr =>
      by_cases h : code = some 0 <;> simp [runCodeAgainstTestCase, h]
  | errorEvent m => rfl
  | orchException m => rfl

/-- C1: if the process exits with status 0, the result's `passed` is true
iff trimmed stdout equals the trimmed expected output, and both
`actualOutput` and `expectedOutput` are present and hold the trimmed
values, whether the comparison passed or failed. -/
theorem c1_exit_zero_trimmed_comparison (tc : TestCase) (stdout stderr : String) :
    runCodeAgainstTestCase tc (.close (some 0) stdout stderr) =
      { testCaseId := tc.id
        passed := stdout.trim == tc.expected_output.trim
        actualOutput := some stdout.trim
        expectedOutput := some tc.expected_output.trim
        input := some tc.input
        error := none } ∧
    ((runCodeAgainstTestCase tc (.close (some 0) stdout stderr)).passed = true ↔
      stdout.trim = tc.expected_output.trim) := by
  constructor
  · simp [runCodeAgainstTestCase]
  · simp [runCodeAgainstTestCase]

/-- One iteration's result in the judge loop (index.ts:1460-1475): the
test case paired with the event that settled its run. -/
def runPair (c : TestCase × ProcEvent) : TestResult :=
  runCodeAgainstTestCase c.1 c.2

/-- The body of the `for (const testCase of testCases)` loop of the
handler: accumulates `passedTests` and pushes each result in order. -/
def judgeStep (acc : Nat × List TestResult) (c : TestCase × ProcEvent) :
    Nat × List TestResult :=
  let r := runPair c
  (if r.passed then acc.1 + 1 else acc.1, acc.2 ++ [r])

/-- The judge loop of the handler, folding `judgeStep` over the test
cases in input order starting from `passedTests = 0`, `results = []`. -/
def judgeLoop (cases : List (TestCase × ProcEvent)) : Nat × List TestResult :=
  cases.foldl judgeStep (0, [])

theorem judgeLoop_foldl (cases : List (TestCase × ProcEvent)) :
    ∀ (n : Nat) (rs : List TestResult),
      cases.foldl judgeStep (n, rs) =
        (n + (cases.map runPair).countP (·.passed),
         rs ++ cases.map runPair) := by
  induction cases with
  | nil => intro n rs; simp
  | cons c rest ih =>
      intro n rs
      simp only [List.foldl_cons, List.map_cons, List.countP_cons]
      rw [judgeStep, ih]
      cases h : (runPair c).passed <;> (simp [h]; try omega)

theorem judgeLoop_eq (cases : List (TestCase × ProcEvent)) :
    judgeLoop cases =
      ((cases.map runPair).countP (·.passed), cases.map runPair) := by
  simpa using judgeLoop_foldl cases 0 []

/-- C2: the report satisfies `results.length = testCases.length`,
`passedCount` counts the passing entries, and `results[i].testCaseId =
testCases[i].id` for every index `i` (order preservation). -/
theorem c2_report_invariants (cases : List (TestCase × ProcEvent)) :
    (judgeLoop cases).2.length = cases.length ∧
    (judgeLoop cases).1 = (judgeLoop cases).2.countP (·.passed) ∧
    ∀ i, i < cases.length →
      ((judgeLoop cases).2.getD i default).testCaseId =
        ((cases.getD i default).1).id := by
  rw [judgeLoop_eq]
  refine ⟨by simp, rfl, ?_⟩
  intro i hi
  rw [List.getD_eq_getElem?_getD, List.getD_eq_getElem?_getD,
    List.getElem?_map, List.getElem?_eq_getElem hi]
  simp [runPair, runCode_testCaseId]

/-- A sample test case used by witnesses and counterexamples. -/
def tcSample : TestCase :=
  { id := "tc1", input := "hello", expected_output := "hello" }

/-- Witness for C2 at a one-element test-case list. -/
theorem c2_report_invariants_witness :
    ((judgeLoop [(tcSample, .close (some 0) "hello" "")]).2.getD 0
        default).testCaseId = "tc1" := by
  have h :=
    (c2_report_invariants [(tcSample, .close (some 0) "hello" "")]).2.2 0
      (by decide)
  simpa [tcSample] using h

/-- C3: on a non-zero exit code the result is `passed = false`, `error`
is the captured stderr or, when stderr is empty, the synthesized message
naming the exit code (non-empty either way), and `actualOutput` and
`expectedOutput` are absent. -/
theorem c3_nonzero_exit (tc : TestCase) (n : Nat) (hn : n ≠ 0)
    (stdout stderr : String) :
    (runCodeAgainstTestCase tc (.close (some n) stdout stderr)).passed = false ∧
    (runCodeAgainstTestCase tc (.close (some n) stdout stderr)).error =
      some (if stderr = "" then "Process exited with code " ++ toString n
        else stderr) ∧
    (runCodeAgainstTestCase tc (.close (some n) stdout stderr)).error ≠
      some "" ∧
    (runCodeAgainstTestCase tc (.close (some n) stdout stderr)).actualOutput
      = none ∧
    (runCodeAgainstTestCase tc (.close (some n) stdout stderr)).expectedOutput
      = none := by
  have hrec : runCodeAgainstTestCase tc (.close (some n) stdout stderr) =
      { testCaseId := tc.id
        passed := false
        error := some (if stderr = "" then
            "Process exited with code " ++ toString n else stderr)
        input := some tc.input } := by
    simp [runCodeAgainstTestCase, exitCodeText, hn]
  rw [hrec]
  refine ⟨rfl, rfl, ?_, rfl, rfl⟩
  by_cases hs : stderr = ""
  · simp only [hs, eq_self_iff_true, if_true, ne_eq, Option.some.injEq]
    intro h
    have hlen := congrArg String.length h
    rw [String.length_append] at hlen
    have h25 : ("Process exited with code ").length = 25 := rfl
    have h0 : ("" : String).length = 0 := rfl
    omega
  · simp [hs]

/-- Witness for C3 at exit code 1 with empty stderr. -/
theorem c3_nonzero_exit_witness :
    (runCodeAgainstTestCase tcSample (.close (some 1) "" "")).error =
      some "Process exited with code 1" :=
  (c3_nonzero_exit tcSample 1 (by decide) "" "").2.1

/-- C4 counterexample: a run killed at 6000 ms (past the 5000 ms budget)
produces exactly the same `TestResult` as a run that exits with code 1
after 100 ms with the same stderr — the timeout is not distinguishable
from a non-zero-exit runtime failure — and with empty stderr the timeout
error message is `"Process exited with code null"`, which does not name
a timeout. -/
theorem c4_counterexample :
    runCodeAgainstTestCase tcSample
        (observeChild { durationMs := 6000, exitCode := 0, stdout := "", stderr := "err" }) =
      runCodeAgainstTestCase tcSample
        (observeChild { durationMs := 100, exitCode := 1, stdout := "", stderr := "err" }) ∧
    (runCodeAgainstTestCase tcSample
        (observeChild { durationMs := 6000, exitCode := 0, stdout := "", stderr := "" })).error =
      some "Process exited with code null" := by
  constructor <;> rfl

/-- C4 amended: when the child runs longer than the 5000 ms budget the
result has `passed = false`, no `actualOutput`/`expectedOutput`, and
`error` equal to the accumulated stderr or, when it is empty, the
message `"Process exited with code null"` — a message that names the
`null` exit code of the killed process, not a timeout. -/
theorem c4_amended_timeout_result (tc : TestCase) (r : ChildRun)
    (h : r.durationMs > timeoutMs) :
    runCodeAgainstTestCase tc (observeChild r) =
      { testCaseId := tc.id
        passed := false
        error := some (if r.stderr = "" then "Process exited with code null"
          else r.stderr)
        input := some tc.input } := by
  rw [observeChild, if_pos h]
  simp [runCodeAgainstTestCase, exitCodeText]

/-- Witness for the amended C4 at a concrete 6000 ms run. -/
theorem c4_amended_timeout_result_witness :
    runCodeAgainstTestCase tcSample
        (observeChild { durationMs := 6000, exitCode := 0, stdout := "par", stderr := "" }) =
      { testCaseId := "tc1"
        passed := false
        error := some "Process exited with code null"
        input := some "hello" } := by
  have h := c4_amended_timeout_result tcSample
    { durationMs := 6000, exitCode := 0, stdout := "par", stderr := "" }
    (by decide)
  simpa [tcSample] using h

/-- C7: the operation is a total function to `TestResult` (it always
resolves), and on the spawn-failure event or a caught orchestration
exception it resolves to `passed = false` with an error message (the
event message, or the generic `"Execution error"` for a thrown
non-`Error` value). -/
theorem c7_never_throws (tc : TestCase) (msg : String) (m : Option String) :
    ((runCodeAgainstTestCase tc (.errorEvent msg)).passed = false ∧
      (runCodeAgainstTestCase tc (.errorEvent msg)).error = some msg) ∧
    ((runCodeAgainstTestCase tc (.orchException m)).passed = false ∧
      (runCodeAgainstTestCase tc (.orchException m)).error =
        some (m.getD "Execution error")) := by
  exact ⟨⟨rfl, rfl⟩, ⟨rfl, rfl⟩⟩

/-- C9: in every branch the produced result carries the supplied test
case's id and its input text. -/
theorem c9_id_and_input_always (tc : TestCase) (ev : ProcEvent) :
    (runCodeAgainstTestCase tc ev).testCaseId = tc.id ∧
    (runCodeAgainstTestCase tc ev).input = some tc.input :=
  ⟨runCode_testCaseId tc ev, runCode_input tc ev⟩

/-- The event settles a run that reached a successful (exit code 0)
output comparison. -/
def isCleanExit : ProcEvent → Bool
  | .close (some 0) _ _ => true
  | _ => false

/-- C10: `error` is present exactly when execution did not reach an
exit-code-0 output comparison, `actualOutput` is present exactly when it
did; in particular a wrong answer has no `error`, and `error` and
`actualOutput` are mutually exclusive. -/
theorem c10_error_iff_no_comparison (tc : TestCase) (ev : ProcEvent) :
    (runCodeAgainstTestCase tc ev).error.isSome = !(isCleanExit ev) ∧
    (runCodeAgainstTestCase tc ev).actualOutput.isSome = isCleanExit ev ∧
    (runCodeAgainstTestCase tc ev).error.isSome =
      !(runCodeAgainstTestCase tc ev).actualOutput.isSome := by
  have hmain :
      (runCodeAgainstTestCase tc ev).error.isSome = !(isCleanExit ev) ∧
      (runCodeAgainstTestCase tc ev).actualOutput.isSome = isCleanExit ev := by
    cases ev with
    | close code stdout stderr =>
        match code with
        | none => exact ⟨rfl, rfl⟩
        | some 0 => exact ⟨rfl, rfl⟩
        | some (k + 1) =>
            have hne : (some (k + 1) : Option Nat) ≠ some 0 := by simp
            constructor <;> simp [runCodeAgainstTestCase, hne, isCleanExit]
    | errorEvent m => exact ⟨rfl, rfl⟩
    | orchException m => exact ⟨rfl, rfl⟩
  exact ⟨hmain.1, hmain.2, by rw [hmain.1, hmain.2]⟩

/-! ## The `/judge` request handler (index.ts:1397-1497) -/

/-- The handler's possible HTTP responses.  `ok` is the JSON report
`{score, passedTests, totalTests, results}` sent with the default 200
status; the others are the early returns with their error payloads. -/
inductive JudgeResponse where
  | badRequest
  | verificationRequired
  | problemNotFound
  | testCasesFetchFailed
  | ok (score : String) (passedTests totalTests : Nat)
      (results : List TestResult)
deriving DecidableEq, Repr

/-- The HTTP status code of each response. -/
def statusOf : JudgeResponse → Nat
  | .badRequest => 400
  | .verificationRequired => 403
  | .problemNotFound => 404
  | .testCasesFetchFailed => 500
  | .ok _ _ _ _ => 200

/-- The outcomes of the handler's awaited collaborator calls: whether the
multipart file and the body fields were present, whether the
`verified_users` lookup found a verified user, whether the problem row
exists, whether the `test_cases` query succeeded, and the test cases
together with the event settling each one's run. -/
structure JudgeEnv where
  hasFile : Bool
  hasProblemId : Bool
  hasUserId : Bool
  verified : Bool
  problemFound : Bool
  testCasesOk : Bool
  cases : List (TestCase × ProcEvent)
deriving Repr

/-- The `score` template string of the response. -/
def scoreText (passedTests totalTests : Nat) : String :=
  toString passedTests ++ "/" ++ toString totalTests

/-- The `/judge` handler: returns the response and whether
`fs.unlinkSync(codeFile.path)` was attempted before returning.  The
source attempts deletion only on the verification-failure return and on
the completed-judging return. -/
def judgeHandler (env : JudgeEnv) : JudgeResponse × Bool :=
  if !env.hasFile || !env.hasProblemId || !env.hasUserId then
    (.badRequest, false)
  else if !env.verified then
    (.verificationRequired, true)
  else if !env.problemFound then
    (.problemNotFound, false)
  else if !env.testCasesOk then
    (.testCasesFetchFailed, false)
  else
    let totalTests := env.cases.length
    let p := judgeLoop env.cases
    (.ok (scoreText p.1 totalTests) p.1 totalTests p.2, true)

/-- An environment in which everything is present and judging completes. -/
def envAllOk (cases : List (TestCase × ProcEvent)) : JudgeEnv :=
  { hasFile := true, hasProblemId := true, hasUserId := true,
    verified := true, problemFound := true, testCasesOk := true,
    cases := cases }

/-- C5 counterexample: with the uploaded file present but the problem
lookup failing, the handler returns the 404 response without deleting
the file — an exit path on which the temporary file is not deleted. -/
theorem c5_counterexample :
    (judgeHandler { (envAllOk []) with problemFound := false }).2 = false ∧
    { (envAllOk []) with problemFound := false }.hasFile = true ∧
    (judgeHandler { (envAllOk []) with problemFound := false }).1 =
      .problemNotFound := by
  refine ⟨rfl, rfl, rfl⟩

/-- C5 amended: the file deletion is attempted exactly on the
verification-failure exit path and on the completed-judging path; the
missing-field, problem-not-found and test-case-loading-failure paths
return without deleting the file. -/
theorem c5_amended_cleanup_paths (env : JudgeEnv) :
    (judgeHandler env).2 =
      (env.hasFile && env.hasProblemId && env.hasUserId &&
        (!env.verified || (env.problemFound && env.testCasesOk))) := by
  rcases env with ⟨f, p, u, v, pf, tk, cs⟩
  cases f <;> cases p <;> cases u <;> cases v <;> cases pf <;> cases tk <;>
    simp [judgeHandler]

/-- C6 counterexample: with the file present, the problem found and test
cases loading, an unverified user still gets a non-2xx (403) response —
a non-2xx answer that is none of "missing problem", "missing test
cases", "missing uploaded file". -/
theorem c6_counterexample :
    statusOf (judgeHandler { (envAllOk []) with verified := false }).1 = 403 ∧
    { (envAllOk []) with verified := false }.hasFile = true ∧
    { (envAllOk []) with verified := false }.problemFound = true ∧
    { (envAllOk []) with verified := false }.testCasesOk = true := by
  refine ⟨rfl, rfl, rfl, rfl⟩

/-- C6 amended: the handler responds 200 exactly when the file, problem
id and user id are present, the user is verified, the problem exists and
the test cases load; in that case the response is the report, whatever
the per-case outcomes (including all failing).  Non-2xx responses also
cover missing body fields (400) and unverified users (403), beyond the
infrastructure failures the claim lists. -/
theorem c6_amended_status (env : JudgeEnv) :
    (statusOf (judgeHandler env).1 = 200 ↔
      (env.hasFile = true ∧ env.hasProblemId = true ∧ env.hasUserId = true ∧
        env.verified = true ∧ env.problemFound = true ∧
        env.testCasesOk = true)) ∧
    (env.hasFile = true → env.hasProblemId = true → env.hasUserId = true →
      env.verified = true → env.problemFound = true → env.testCasesOk = true →
      (judgeHandler env).1 =
        .ok (scoreText (judgeLoop env.cases).1 env.cases.length)
          (judgeLoop env.cases).1 env.cases.length (judgeLoop env.cases).2) := by
  rcases env with ⟨f, p, u, v, pf, tk, cs⟩
  cases f <;> cases p <;> cases u <;> cases v <;> cases pf <;> cases tk <;>
    simp [judgeHandler, statusOf]

/-- Witness for the amended C6: the all-ok environment with one passing
test case responds 200. -/
theorem c6_amended_status_witness :
    statusOf (judgeHandler (envAllOk
      [(tcSample, .close (some 0) "hello" "")])).1 = 200 :=
  (c6_amended_status (envAllOk
    [(tcSample, .close (some 0) "hello" "")])).1.mpr
    ⟨rfl, rfl, rfl, rfl, rfl, rfl⟩

/-- C8: invoked with an empty test-case list, the handler returns the
report `{score: "0/0", passedTests: 0, totalTests: 0, results: []}` with
the file cleaned up, and the response status is 200. -/
theorem c8_empty_test_cases :
    judgeHandler (envAllOk []) = (.ok "0/0" 0 0 [], true) ∧
    statusOf (judgeHandler (envAllOk [])).1 = 200 := by
  refine ⟨rfl, rfl⟩

end WMOJ
